import Mathlib

/-!
Verification of the utility header `examples/viewer/DirectX/D3DUtil.h`.

Embedding conventions:
- IEEE float arithmetic is embedded as exact rational arithmetic (`ℚ`);
  the claims under study are about the algebraic structure of the
  computations, not about rounding.
- `std::size_t` is embedded as `Nat` (no arithmetic overflows occur in
  the embedded code: it only compares and selects).
- `HRESULT` is a 32-bit signed integer, embedded as `Int` restricted to
  the interval from -2147483648 to 2147483647 where the width matters.
  The `FAILED(hr)` macro tests `hr < 0`.
- Functions that throw are embedded as `Except`-valued functions.
- The static message buffer of `DX::com_exception::what` is embedded by
  explicit state passing: the buffer content before the call goes in,
  the buffer content after the call comes out together with the returned
  message.
-/

namespace D3DUtil

/-- 3-component float vector, `DirectX::XMFLOAT3` with `ℚ` components. -/
structure XMFLOAT3 where
  x : ℚ
  y : ℚ
  z : ℚ
  deriving DecidableEq, Repr

/-- 4-component float vector, `DirectX::XMFLOAT4` with `ℚ` components. -/
structure XMFLOAT4 where
  x : ℚ
  y : ℚ
  z : ℚ
  w : ℚ
  deriving DecidableEq, Repr

/-- `Util::BBox`: axis-aligned bounding box plus its derived centering
translation. -/
structure BBox where
  Min : XMFLOAT3
  Max : XMFLOAT3
  CenterTranslation : XMFLOAT3
  deriving DecidableEq, Repr

/-- Modelled from the spec: the element-shape enumeration
`fx::gltf::Accessor::Type` of the (not shown) library header `fx/gltf.h`;
the spec lists the shape tags Scalar/Vec2/Vec3/Vec4/... of the glTF
accessor model. -/
inductive AccessorType where
  | None
  | Scalar
  | Vec2
  | Vec3
  | Vec4
  | Mat2
  | Mat3
  | Mat4
  deriving DecidableEq, Repr

/-- Modelled from the spec: the component datatype enumeration
`fx::gltf::Accessor::ComponentType` of the (not shown) library header
`fx/gltf.h`; the spec lists the tags Float/UnsignedInt/UnsignedShort/...
of the glTF accessor model. -/
inductive ComponentType where
  | None
  | Byte
  | UnsignedByte
  | Short
  | UnsignedShort
  | UnsignedInt
  | Float
  deriving DecidableEq, Repr

/-- The `DXGI_FORMAT` values that `Util::GetFormat` can return. -/
inductive DXGIFormat where
  | R32G32B32Float
  | R32UInt
  | R16UInt
  deriving DecidableEq, Repr

/-- `Util::GetFormat`: maps the (type, componentType) pair of an accessor
to a DXGI vertex format, throwing `std::runtime_error("Unknown accessor
types")` for every unsupported pair. -/
def GetFormat (type : AccessorType) (componentType : ComponentType) :
    Except String DXGIFormat :=
  if type = AccessorType.Vec3 ∧ componentType = ComponentType.Float then
    Except.ok DXGIFormat.R32G32B32Float
  else if type = AccessorType.Scalar ∧ componentType = ComponentType.UnsignedInt then
    Except.ok DXGIFormat.R32UInt
  else if type = AccessorType.Scalar ∧ componentType = ComponentType.UnsignedShort then
    Except.ok DXGIFormat.R16UInt
  else
    Except.error "Unknown accessor types"

/-- `Util::ResourceSize`: rounds a requested byte count up to the 64 KiB
minimum resource size. -/
def ResourceSize (size : Nat) : Nat :=
  let MinResourceSize : Nat := 64 * 1024
  if size < MinResourceSize then MinResourceSize else size

/-- `Util::AdjustBBox`: merges `other` into `currentBBox`, componentwise
min on `Min` and componentwise max on `Max`; `other` is taken by constant
reference (never written), and `CenterTranslation` of the accumulator is
not touched. -/
def AdjustBBox (currentBBox : BBox) (other : BBox) : BBox :=
  { currentBBox with
    Min := ⟨min currentBBox.Min.x other.Min.x,
            min currentBBox.Min.y other.Min.y,
            min currentBBox.Min.z other.Min.z⟩,
    Max := ⟨max currentBBox.Max.x other.Max.x,
            max currentBBox.Max.y other.Max.y,
            max currentBBox.Max.z other.Max.z⟩ }

/-- `Util::CenterBBox`: stores the negated midpoint of `Min` and `Max`
into `CenterTranslation` (via `XMVectorNegate(0.5f * (min + max))`). -/
def CenterBBox (currentBBox : BBox) : BBox :=
  { currentBBox with
    CenterTranslation :=
      ⟨-((1/2 : ℚ) * (currentBBox.Min.x + currentBBox.Max.x)),
       -((1/2 : ℚ) * (currentBBox.Min.y + currentBBox.Max.y)),
       -((1/2 : ℚ) * (currentBBox.Min.z + currentBBox.Max.z))⟩ }

/-- `std::clamp(v, lo, hi)`: `lo` if `v < lo`, else `hi` if `hi < v`,
else `v`. -/
def stdClamp (v lo hi : ℚ) : ℚ :=
  if v < lo then lo else if hi < v then hi else v

/-- `Util::HSVtoRBG`: converts an HSV triple to RGBA, transcribed
statement by statement from the source. -/
def HSVtoRBG (hue saturation value : ℚ) : XMFLOAT4 :=
  let rx := |hue * 6 - 3| - 1
  let ry := 2 - |hue * 6 - 2|
  let rz := 2 - |hue * 6 - 4|
  let cx := stdClamp rx 0 1
  let cy := stdClamp ry 0 1
  let cz := stdClamp rz 0 1
  ⟨((cx - 1) * saturation + 1) * value,
   ((cy - 1) * saturation + 1) * value,
   ((cz - 1) * saturation + 1) * value,
   1⟩

/-- One digit of the `%X` conversion of `sprintf_s`: digits 0-9 map to
the characters 0-9, digits 10-15 to the uppercase characters A-F. -/
def hexDigitChar (n : Nat) : Char :=
  if n < 10 then Char.ofNat (48 + n) else Char.ofNat (55 + n)

/-- The `%08X` conversion of `sprintf_s` applied to a 32-bit value: the
eight hexadecimal digits of `n`, uppercase, zero padded, most significant
first. -/
def toHex8 (n : Nat) : String :=
  String.mk [hexDigitChar (n / 16 ^ 7 % 16), hexDigitChar (n / 16 ^ 6 % 16),
             hexDigitChar (n / 16 ^ 5 % 16), hexDigitChar (n / 16 ^ 4 % 16),
             hexDigitChar (n / 16 ^ 3 % 16), hexDigitChar (n / 16 ^ 2 % 16),
             hexDigitChar (n / 16 ^ 1 % 16), hexDigitChar (n % 16)]

/-- Value of one hexadecimal character (inverse of `hexDigitChar`, used
only to state what the formatted message denotes). -/
def hexCharVal (c : Char) : Nat :=
  if c.toNat ≤ 57 then c.toNat - 48 else c.toNat - 55

/-- Numeric value denoted by a string of hexadecimal characters. -/
def parseHexList : List Char → Nat
  | [] => 0
  | c :: cs => hexCharVal c * 16 ^ cs.length + parseHexList cs

/-- `DX::com_exception`: carries the raw `HRESULT`. -/
structure ComException where
  result : Int
  deriving DecidableEq, Repr

/-- The text produced by `sprintf_s(s_str, "Failure with HRESULT of
%08X", result)`: `%X` reads the 32-bit argument as unsigned, hence the
reduction modulo 2^32. -/
def formatHResult (result : Int) : String :=
  "Failure with HRESULT of " ++ toHex8 (result % 4294967296).toNat

/-- `DX::com_exception::what`: formats the message into the shared static
buffer `s_str` on every call and returns it. The buffer is embedded as
explicit state: the call maps the buffer content before the call to the
pair (returned message, buffer content after the call). -/
def comExceptionWhat (e : ComException) (buffer : String) : String × String :=
  let s := formatHResult e.result
  (s, s)

/-- `DX::ThrowIfFailed`: throws `com_exception(hr)` exactly when
`FAILED(hr)`, i.e. when `hr < 0` as a signed 32-bit value. -/
def ThrowIfFailed (hr : Int) : Except ComException Unit :=
  if hr < 0 then Except.error ⟨hr⟩ else Except.ok ()

/-- The HSV conversion algorithm exactly as the spec words it: raw
channel terms from the hue, clamp of each to the interval from 0 to 1
(stated mathematically as min with 1 of max with 0), then the
saturation/value affine map, with alpha fixed at 1. -/
def HSVtoRGBSpecAlgorithm (hue saturation value : ℚ) : XMFLOAT4 :=
  let r0 := |hue * 6 - 3| - 1
  let g0 := 2 - |hue * 6 - 2|
  let b0 := 2 - |hue * 6 - 4|
  let cr := min (max r0 0) 1
  let cg := min (max g0 0) 1
  let cb := min (max b0 0) 1
  ⟨((cr - 1) * saturation + 1) * value,
   ((cg - 1) * saturation + 1) * value,
   ((cb - 1) * saturation + 1) * value,
   1⟩

/-- C1: `Util::GetFormat` returns `DXGI_FORMAT_R32G32B32_FLOAT` exactly
for (Vec3, Float), `DXGI_FORMAT_R32_UINT` exactly for (Scalar,
UnsignedInt), `DXGI_FORMAT_R16_UINT` exactly for (Scalar, UnsignedShort),
and for every other pair throws, with no fallback or default result. -/
theorem GetFormat_spec (t : AccessorType) (c : ComponentType) :
    (GetFormat t c = Except.ok DXGIFormat.R32G32B32Float ↔
      (t = AccessorType.Vec3 ∧ c = ComponentType.Float)) ∧
    (GetFormat t c = Except.ok DXGIFormat.R32UInt ↔
      (t = AccessorType.Scalar ∧ c = ComponentType.UnsignedInt)) ∧
    (GetFormat t c = Except.ok DXGIFormat.R16UInt ↔
      (t = AccessorType.Scalar ∧ c = ComponentType.UnsignedShort)) ∧
    (GetFormat t c = Except.error "Unknown accessor types" ↔
      ¬((t = AccessorType.Vec3 ∧ c = ComponentType.Float) ∨
        (t = AccessorType.Scalar ∧ c = ComponentType.UnsignedInt) ∨
        (t = AccessorType.Scalar ∧ c = ComponentType.UnsignedShort))) := by
  cases t <;> cases c <;> simp [GetFormat]

/-- C2: `Util::ResourceSize` is total on byte counts and returns
`max(size, 65536)`: never below the input, never below the 64 KiB floor,
with the concrete values 65536, 65536 and 70000 at inputs 0, 65536 and
70000. -/
theorem ResourceSize_spec (s : Nat) :
    ResourceSize s = max s 65536 ∧
    s ≤ ResourceSize s ∧
    65536 ≤ ResourceSize s ∧
    ResourceSize 0 = 65536 ∧
    ResourceSize 65536 = 65536 ∧
    ResourceSize 70000 = 70000 := by
  have h : ∀ n : Nat, ResourceSize n = max n 65536 := by
    intro n
    show (if n < 64 * 1024 then 64 * 1024 else n) = max n 65536
    split <;> omega
  refine ⟨h s, ?_, ?_, ?_, ?_, ?_⟩ <;> rw [h] <;> omega

/-- C5: `Util::HSVtoRBG` is total on all rational inputs and computes
exactly the algorithm of the spec (channel terms, clamp to the unit
interval, saturation/value map); the alpha component is exactly 1 for
all inputs; and the concrete inputs (0,1,1) and (0,0,1) give red
(1,0,0,1) and white (1,1,1,1), here exactly. -/
theorem HSVtoRBG_spec (hue saturation value : ℚ) :
    HSVtoRBG hue saturation value = HSVtoRGBSpecAlgorithm hue saturation value ∧
    (HSVtoRBG hue saturation value).w = 1 ∧
    HSVtoRBG 0 1 1 = ⟨1, 0, 0, 1⟩ ∧
    HSVtoRBG 0 0 1 = ⟨1, 1, 1, 1⟩ := by
  have hc : ∀ v : ℚ, stdClamp v 0 1 = min (max v 0) 1 := by
    intro v
    unfold stdClamp
    split_ifs with h1 h2
    · rw [max_eq_right h1.le, min_eq_left (by norm_num : (0 : ℚ) ≤ 1)]
    · rw [max_eq_left (not_lt.mp h1), min_eq_right h2.le]
    · rw [max_eq_left (not_lt.mp h1), min_eq_left (not_lt.mp h2)]
  refine ⟨?_, rfl, ?_, ?_⟩
  · simp only [HSVtoRBG, HSVtoRGBSpecAlgorithm, hc]
  · simp [HSVtoRBG, stdClamp]
    norm_num
  · simp [HSVtoRBG, stdClamp]

/-- C6: `Util::CenterBBox` stores the componentwise value
`-(Min + Max) / 2`, read at call time, into `CenterTranslation`,
overwriting any previous value; on Min = (-1,-2,-3), Max = (3,4,5) the
result is (-1,-1,-1) whatever was stored before. -/
theorem CenterBBox_spec (b : BBox) :
    (CenterBBox b).CenterTranslation =
      ⟨-((b.Min.x + b.Max.x) / 2),
       -((b.Min.y + b.Max.y) / 2),
       -((b.Min.z + b.Max.z) / 2)⟩ ∧
    (∀ prior : XMFLOAT3,
      (CenterBBox ⟨⟨-1, -2, -3⟩, ⟨3, 4, 5⟩, prior⟩).CenterTranslation =
        ⟨-1, -1, -1⟩) := by
  constructor
  · simp [CenterBBox]
    refine ⟨by ring, by ring, by ring⟩
  · intro prior
    simp [CenterBBox]
    norm_num

/-- C7: `Util::AdjustBBox` is commutative and associative per axis on
the `Min` and `Max` fields, so folding boxes in any order yields the
same overall `Min` and `Max`. -/
theorem AdjustBBox_comm_assoc (a b c : BBox) :
    (AdjustBBox a b).Min = (AdjustBBox b a).Min ∧
    (AdjustBBox a b).Max = (AdjustBBox b a).Max ∧
    (AdjustBBox (AdjustBBox a b) c).Min = (AdjustBBox a (AdjustBBox b c)).Min ∧
    (AdjustBBox (AdjustBBox a b) c).Max = (AdjustBBox a (AdjustBBox b c)).Max := by
  refine ⟨?_, ?_, ?_, ?_⟩ <;> simp only [AdjustBBox, XMFLOAT3.mk.injEq]
  · exact ⟨min_comm _ _, min_comm _ _, min_comm _ _⟩
  · exact ⟨max_comm _ _, max_comm _ _, max_comm _ _⟩
  · exact ⟨min_assoc _ _ _, min_assoc _ _ _, min_assoc _ _ _⟩
  · exact ⟨max_assoc _ _ _, max_assoc _ _ _, max_assoc _ _ _⟩

/-- C8: `Util::AdjustBBox` is idempotent: merging a box into itself
leaves it unchanged. -/
theorem AdjustBBox_idem (b : BBox) : AdjustBBox b b = b := by
  cases b with
  | mk mn mx ct => cases mn; cases mx; simp [AdjustBBox]

/-- C9: `Util::AdjustBBox` writes only `Min` and `Max` of the
accumulator: its `CenterTranslation` is unchanged. The other box is
taken by constant reference in the source and is embedded as a plain
input value, so it is never modified. -/
theorem AdjustBBox_frame (currentBBox other : BBox) :
    (AdjustBBox currentBBox other).CenterTranslation =
      currentBBox.CenterTranslation := rfl

/-- C10: `Util::CenterBBox` modifies only `CenterTranslation`: `Min` and
`Max` keep their prior values, and applying the function twice equals
applying it once. -/
theorem CenterBBox_frame (b : BBox) :
    (CenterBBox b).Min = b.Min ∧
    (CenterBBox b).Max = b.Max ∧
    CenterBBox (CenterBBox b) = CenterBBox b :=
  ⟨rfl, rfl, rfl⟩

/-- Each digit emitted by the `%X` conversion is a decimal digit or an
uppercase letter between A and F, and parsing it back gives the digit
value. -/
theorem hexDigitChar_spec (d : Nat) (hd : d < 16) :
    ((hexDigitChar d).isDigit ∨ ('A' ≤ hexDigitChar d ∧ hexDigitChar d ≤ 'F')) ∧
    hexCharVal (hexDigitChar d) = d := by
  interval_cases d <;> exact ⟨by decide, by decide⟩

/-- Every character of the `%08X` output is a decimal digit or an
uppercase letter between A and F. -/
theorem toHex8_chars (n : Nat) :
    ∀ c ∈ (toHex8 n).data, c.isDigit ∨ ('A' ≤ c ∧ c ≤ 'F') := by
  have h16 : ∀ m : Nat, m % 16 < 16 := fun m => Nat.mod_lt _ (by norm_num)
  intro c hc
  simp only [toHex8, List.mem_cons, List.not_mem_nil, or_false] at hc
  rcases hc with h | h | h | h | h | h | h | h <;> subst h <;>
    exact (hexDigitChar_spec _ (h16 _)).1

/-- The `%08X` output of a 32-bit value denotes that value. -/
theorem parseHexList_toHex8 (n : Nat) (hn : n < 4294967296) :
    parseHexList (toHex8 n).data = n := by
  have h16 : ∀ m : Nat, hexCharVal (hexDigitChar (m % 16)) = m % 16 := fun m =>
    (hexDigitChar_spec _ (Nat.mod_lt _ (by norm_num))).2
  simp only [toHex8, parseHexList, List.length_cons, List.length_nil, h16]
  norm_num
  omega

/-- C3: `DX::ThrowIfFailed` throws `com_exception(hr)` exactly when the
32-bit status code is a failure (negative), returns normally exactly on
success, and the message of the raised error is the literal text
`Failure with HRESULT of ` followed by eight zero-padded uppercase
hexadecimal digits denoting the code read as unsigned 32-bit. -/
theorem ThrowIfFailed_spec (hr : Int)
    (h1 : -2147483648 ≤ hr) (h2 : hr < 2147483648) :
    (∀ e : ComException, ThrowIfFailed hr = Except.error e ↔ (hr < 0 ∧ e = ⟨hr⟩)) ∧
    (ThrowIfFailed hr = Except.ok () ↔ 0 ≤ hr) ∧
    (∃ digits : String,
      (∀ buffer : String,
        (comExceptionWhat ⟨hr⟩ buffer).1 = "Failure with HRESULT of " ++ digits) ∧
      digits.length = 8 ∧
      (∀ c ∈ digits.data, c.isDigit ∨ ('A' ≤ c ∧ c ≤ 'F')) ∧
      parseHexList digits.data = (hr % 4294967296).toNat) := by
  refine ⟨?_, ?_, ?_⟩
  · intro e
    unfold ThrowIfFailed
    split_ifs with h
    · simp [h, ComException.mk.injEq, eq_comm]
    · simp [h]
  · unfold ThrowIfFailed
    split_ifs with h <;> simp <;> omega
  · refine ⟨toHex8 (hr % 4294967296).toNat, fun buffer => rfl, rfl, toHex8_chars _, ?_⟩
    exact parseHexList_toHex8 _ (by omega)

/-- Witness for C3 at the concrete failing status code E_FAIL
(0x80004005, -2147467259 as signed 32-bit). -/
theorem ThrowIfFailed_spec_witness :
    (∀ e : ComException,
      ThrowIfFailed (-2147467259) = Except.error e ↔
        ((-2147467259 : Int) < 0 ∧ e = ⟨-2147467259⟩)) ∧
    (ThrowIfFailed (-2147467259) = Except.ok () ↔ (0 : Int) ≤ -2147467259) ∧
    (∃ digits : String,
      (∀ buffer : String,
        (comExceptionWhat ⟨-2147467259⟩ buffer).1 = "Failure with HRESULT of " ++ digits) ∧
      digits.length = 8 ∧
      (∀ c ∈ digits.data, c.isDigit ∨ ('A' ≤ c ∧ c ≤ 'F')) ∧
      parseHexList digits.data = ((-2147467259 : Int) % 4294967296).toNat) :=
  ThrowIfFailed_spec (-2147467259) (by norm_num) (by norm_num)

/-- C4 counterexample: a repeated access to the message of an error
object does write to storage shared with other error instances. With
instances A (code -1) and B (code -2) and the initially empty static
buffer, the sequence A.what, B.what, A.what changes the shared buffer at
the third call (a second access for A), so the buffer content after that
call differs from the buffer content before it. -/
theorem comExceptionWhat_shared_writes :
    (comExceptionWhat ⟨-1⟩
        ((comExceptionWhat ⟨-2⟩ ((comExceptionWhat ⟨-1⟩ "").2)).2)).2 ≠
      (comExceptionWhat ⟨-2⟩ ((comExceptionWhat ⟨-1⟩ "").2)).2 := by
  decide

/-- C4 amended: `what` recomputes the message into the single shared
static buffer on every call; the returned text depends only on the
stored code (so repeated accesses return identical text), and every
access overwrites the shared buffer with that text. -/
theorem comExceptionWhat_amended (e : ComException) (buf1 buf2 : String) :
    (comExceptionWhat e buf1).1 = (comExceptionWhat e buf2).1 ∧
    (comExceptionWhat e buf1).2 = (comExceptionWhat e buf1).1 ∧
    (comExceptionWhat e buf1).1 = formatHResult e.result :=
  ⟨rfl, rfl, rfl⟩

end D3DUtil
